/-
Verification of the QanotSharqCLM booking-workflow core against its
natural-language specification.

The Lean definitions below are a shallow embedding of the Python source:
  * `app/models/layover.py`            — the Layover record and its status enum
  * `app/services/layover_service.py`  — the workflow transitions
  * `app/services/scheduler_service.py`— the reminder / escalation loops
  * `app/models/confirmation_token.py` — the ConfirmationToken record
  * `app/repositories/confirmation_token_repository.py` — token CRUD
  * `app/services/confirmation_service.py` — token issuance / validation

Conventions of the embedding:
  * Wall-clock instants (`datetime.utcnow()`, stored timestamps) are
    integers counting seconds; `timedelta.total_seconds()/3600` becomes
    integer-second arithmetic, and a comparison `total_seconds()/3600 >= h`
    is translated to `seconds >= h*3600`, which is equivalent for real
    division.  Python's `int()` on a float quotient truncates toward zero,
    which is `Int.tdiv` on integer seconds.
  * Opaque UUID strings (layover uuid, token string) are modelled as `Nat`
    identifiers.
  * The database session is modelled by explicit state passing: a service
    method that mutates a row becomes a function returning the updated
    record (or an updated list of records).  A raised exception becomes
    `Except.error`; since every Python method performs its status /
    validity checks before its first attribute assignment, the error
    branches of the Lean functions return before any field update, which
    is exactly the all-or-nothing behaviour of the source.
  * `BusinessRuleException` / `InvalidStatusTransitionException` are the
    spec's `InvalidState`; `ValueError("Invalid token")` is `NotFound`.
  * The external Notifier is modelled by a `NotifyOutcome` parameter:
    the notification call reports success, reports failure, or raises.
-/
import Mathlib

namespace QanotSharq

/-- Layover workflow status, from `LayoverStatus` in `app/models/layover.py`. -/
inductive LayoverStatus where
  | DRAFT
  | SENT
  | PENDING
  | CONFIRMED
  | DECLINED
  | CHANGES_REQUESTED
  | ON_HOLD
  | AMENDED
  | ESCALATED
  | COMPLETED
  | CANCELLED
deriving DecidableEq, Repr

/-- The workflow-relevant fields of the `Layover` row
(`app/models/layover.py`); route/context columns that no transition
reads or writes are omitted.  `check_in_at` is
`datetime.combine(check_in_date, check_in_time)` as seconds. -/
structure Layover where
  id : Nat
  hotel_id : Option Nat
  check_in_at : Int
  status : LayoverStatus
  sent_at : Option Int
  pending_at : Option Int
  confirmed_at : Option Int
  escalated_at : Option Int
  completed_at : Option Int
  on_hold_at : Option Int
  on_hold_reason : Option String
  amendment_count : Nat
  last_amended_at : Option Int
  hotel_notified_of_amendment : Bool
  special_requirements : Option String
  transport_details : Option String
  last_reminder_sent_at : Option Int
  reminder_count : Nat
  reminders_paused : Bool
  reminders_paused_reason : Option String
  reminders_paused_at : Option Int
  hotel_confirmation_number : Option String
  cancelled_at : Option Int
  cancellation_reason : Option String
  cancellation_notice_hours : Option Int
  cancellation_charge_applies : Bool
  cancellation_charge_policy : Option String
  cancellation_charge_percent : Option Int
deriving DecidableEq, Repr

/-- Error taxonomy of the workflow layer (`app/core/exceptions.py`):
`BusinessRuleException` and `InvalidStatusTransitionException` are the
spec's `InvalidState`. -/
inductive WorkflowError where
  | invalidState
  | notFound
deriving DecidableEq, Repr

/-- Embeds `notice_hours = int((check_in_datetime - now).total_seconds() / 3600)`
from `cancel_layover` (`layover_service.py:788`): Python `int()` on the
float quotient truncates toward zero, i.e. `Int.tdiv` on seconds. -/
def notice_hours_of (check_in_at now : Int) : Int :=
  Int.tdiv (check_in_at - now) 3600

/-- Embeds `LayoverService.cancel_layover` (`layover_service.py:748-820`),
status check and field updates only (audit logging and permission checks
are out of scope).  Note that the source sets `cancellation_notice_hours`
and `cancellation_charge_applies` (`charge_applies = notice_hours < 24`)
but never assigns `cancellation_charge_policy` or
`cancellation_charge_percent`. -/
def cancel_layover (now : Int) (reason : String) (l : Layover) :
    Except WorkflowError Layover :=
  if l.status = .COMPLETED then
    .error .invalidState
  else
    let nh := notice_hours_of l.check_in_at now
    .ok { l with
      status := .CANCELLED
      cancelled_at := some now
      cancellation_reason := some reason
      cancellation_notice_hours := some nh
      cancellation_charge_applies := nh < 24
      reminders_paused := true
      reminders_paused_reason := some ("Cancelled: " ++ reason) }

/-- Embeds `LayoverService.send_to_hotel` (`layover_service.py:318-390`):
requires status DRAFT and an assigned hotel (both failures raise
`BusinessRuleException`), then sets SENT/`sent_at` and immediately
PENDING/`pending_at`.  The confirmation-token side effect is modelled
separately by the token layer below. -/
def send_to_hotel (now : Int) (l : Layover) : Except WorkflowError Layover :=
  if l.status ≠ .DRAFT then
    .error .invalidState
  else if l.hotel_id = none then
    .error .invalidState
  else
    .ok { l with
      status := .PENDING
      sent_at := some now
      pending_at := some now }

/-- Embeds `LayoverService.put_on_hold` (`layover_service.py:489-551`):
allowed from SENT, PENDING, CONFIRMED; sets ON_HOLD and pauses
reminders. -/
def put_on_hold (now : Int) (reason : String) (l : Layover) :
    Except WorkflowError Layover :=
  if l.status = .SENT ∨ l.status = .PENDING ∨ l.status = .CONFIRMED then
    .ok { l with
      status := .ON_HOLD
      on_hold_at := some now
      on_hold_reason := some reason
      reminders_paused := true
      reminders_paused_reason := some reason
      reminders_paused_at := some now }
  else
    .error .invalidState

/-- Embeds `LayoverService.resume_from_hold` (`layover_service.py:553-605`):
allowed only from ON_HOLD; restores CONFIRMED when `confirmed_at` is
set, else PENDING.  Note the source then sets `reminders_paused = False`
and clears the reason unconditionally, on both restore paths. -/
def resume_from_hold (l : Layover) : Except WorkflowError Layover :=
  if l.status ≠ .ON_HOLD then
    .error .invalidState
  else
    let restored : LayoverStatus :=
      if l.confirmed_at.isSome then .CONFIRMED else .PENDING
    .ok { l with
      status := restored
      reminders_paused := false
      reminders_paused_reason := none }

/-- Amendable payload of `LayoverAmend` as applied by `amend_layover`;
the other optional amendable columns are applied identically and are
not read by any claim. -/
structure LayoverAmend where
  special_requirements : Option String
  transport_details : Option String
deriving DecidableEq, Repr

/-- Embeds `LayoverService.amend_layover` (`layover_service.py:609-680`):
allowed only from CONFIRMED; applies the provided fields, then sets
AMENDED and the amendment bookkeeping. -/
def amend_layover (now : Int) (data : LayoverAmend) (l : Layover) :
    Except WorkflowError Layover :=
  if l.status ≠ .CONFIRMED then
    .error .invalidState
  else
    let l := { l with
      special_requirements :=
        if data.special_requirements.isSome then data.special_requirements
        else l.special_requirements
      transport_details :=
        if data.transport_details.isSome then data.transport_details
        else l.transport_details }
    .ok { l with
      status := .AMENDED
      amendment_count := l.amendment_count + 1
      last_amended_at := some now
      hotel_notified_of_amendment := false }

/-- Embeds `LayoverService.finalize_layover` (`layover_service.py:684-744`):
allowed from CONFIRMED or AMENDED; sets COMPLETED, `completed_at`, and
the hotel confirmation number. -/
def finalize_layover (now : Int) (confirmation_number : String)
    (l : Layover) : Except WorkflowError Layover :=
  if l.status = .CONFIRMED ∨ l.status = .AMENDED then
    .ok { l with
      status := .COMPLETED
      completed_at := some now
      hotel_confirmation_number := some confirmation_number }
  else
    .error .invalidState

/-- Embeds `LayoverService.delete_layover` (`layover_service.py:824-859`):
allowed only from DRAFT; any other status raises
`BusinessRuleException`. -/
def delete_layover (l : Layover) : Except WorkflowError Unit :=
  if l.status ≠ .DRAFT then
    .error .invalidState
  else
    .ok ()

/-- Outcome of a Notifier call (`notification_service.send_hotel_reminder`
/ `send_escalation_alert`): the call reports success, reports failure, or raises an exception. -/
inductive NotifyOutcome where
  | success
  | failure
  | raised
deriving DecidableEq, Repr

/-- One candidate pass of `SchedulerService.process_reminders`
(`scheduler_service.py:112-209`) for a single layover.  The layover set
is pulled by `get_by_status(PENDING)`, modelled by the leading status
guard; then: skip when `reminders_paused`, skip when `sent_at` unset,
send reminder #1 when `reminder_count == 0 ∧ hours_since_sent ≥ 12`,
reminder #2 when `reminder_count == 1 ∧ hours_since_sent ≥ 24`, nothing
when `reminder_count ≥ 2`.  The layover is updated (count incremented,
`last_reminder_sent_at := now`) only when the Notifier reports success;
a failure or a raised exception is logged and leaves the row untouched.
Returns the updated layover and the reminder number successfully
sent, if any. -/
def process_reminder_tick (now : Int) (outcome : NotifyOutcome)
    (l : Layover) : Layover × Option Nat :=
  if l.status ≠ .PENDING then (l, none)
  else if l.reminders_paused then (l, none)
  else
    match l.sent_at with
    | none => (l, none)
    | some s =>
      let seconds_since_sent := now - s
      if (l.reminder_count = 0 ∧ seconds_since_sent ≥ 12 * 3600) ∨
         (l.reminder_count = 1 ∧ seconds_since_sent ≥ 24 * 3600) then
        if outcome = .success then
          ({ l with
              reminder_count := l.reminder_count + 1
              last_reminder_sent_at := some now },
           some (l.reminder_count + 1))
        else (l, none)
      else (l, none)

/-- One candidate pass of `SchedulerService.process_escalations`
(`scheduler_service.py:213-296`) for a single layover: pulled by
`get_by_status(PENDING)` (leading status guard); skip when
`reminders_paused` or `sent_at` unset; when `hours_since_sent ≥ 36`
send the supervisor alert and, only if it reports success, set
ESCALATED and `escalated_at := now`.  Returns the updated layover and
whether an escalation was successfully performed. -/
def process_escalation_tick (now : Int) (outcome : NotifyOutcome)
    (l : Layover) : Layover × Bool :=
  if l.status ≠ .PENDING then (l, false)
  else if l.reminders_paused then (l, false)
  else
    match l.sent_at with
    | none => (l, false)
    | some s =>
      let seconds_since_sent := now - s
      if seconds_since_sent ≥ 36 * 3600 then
        if outcome = .success then
          ({ l with status := .ESCALATED, escalated_at := some now }, true)
        else (l, false)
      else (l, false)

/-- Embeds `TokenType` from `app/models/confirmation_token.py`. -/
inductive TokenType where
  | hotel_confirmation
  | crew_portal
  | password_reset
deriving DecidableEq, Repr

/-- The `ConfirmationToken` row (`app/models/confirmation_token.py`);
the UUID token string is modelled as an opaque `Nat`. -/
structure ConfirmationToken where
  token : Nat
  token_type : TokenType
  layover_id : Nat
  hotel_id : Option Nat
  expires_at : Int
  used_at : Option Int
  is_valid : Bool
deriving DecidableEq, Repr

/-- Error taxonomy of the token layer: `ValueError("Invalid token")` is
the spec's `NotFound`; `TokenAlreadyUsedException`,
`TokenExpiredException` and `InvalidStatusTransitionException` map to
the other three. -/
inductive TokenError where
  | notFound
  | alreadyUsed
  | expired
  | invalidState
deriving DecidableEq, Repr

/-- Embeds `ConfirmationToken.is_expired` (`confirmation_token.py:112-116`):
`datetime.utcnow() > self.expires_at`. -/
def ConfirmationToken.is_expired (t : ConfirmationToken) (now : Int) : Bool :=
  now > t.expires_at

/-- Embeds `ConfirmationToken.is_usable` (`confirmation_token.py:118-121`):
`self.is_valid and not self.is_expired and self.used_at is None`. -/
def ConfirmationToken.is_usable (t : ConfirmationToken) (now : Int) : Bool :=
  t.is_valid && !(t.is_expired now) && t.used_at == none

/-- Embeds `ConfirmationTokenRepository.get_by_token`
(`confirmation_token_repository.py:62-76`): first row whose token
string matches. -/
def get_by_token (tokens : List ConfirmationToken) (tok : Nat) :
    Option ConfirmationToken :=
  tokens.find? (fun t => t.token == tok)

/-- Embeds `ConfirmationTokenRepository.validate_token`
(`confirmation_token_repository.py:78-104`): `NotFound` when absent,
`AlreadyUsed` when `is_valid` is false, `Expired` when
`expires_at < now`; otherwise returns the row.  (`used_at` is not
consulted.) -/
def validate_token (tokens : List ConfirmationToken) (tok : Nat)
    (now : Int) : Except TokenError ConfirmationToken :=
  match get_by_token tokens tok with
  | none => .error .notFound
  | some t =>
    if !t.is_valid then .error .alreadyUsed
    else if t.expires_at < now then .error .expired
    else .ok t

/-- Replace the first row matching the token string using `f`, leaving
the rest of the table unchanged — the effect of the repository's
"`get_by_token` then mutate then commit" pattern. -/
def update_first_token (tokens : List ConfirmationToken) (tok : Nat)
    (f : ConfirmationToken → ConfirmationToken) : List ConfirmationToken :=
  match tokens with
  | [] => []
  | t :: ts =>
    if t.token == tok then f t :: ts
    else t :: update_first_token ts tok f

/-- Embeds `ConfirmationTokenRepository.mark_as_used`
(`confirmation_token_repository.py:106-132`): sets `used_at = now` and
`is_valid = False` on the matching row; `ValueError` when absent. -/
def mark_as_used (tokens : List ConfirmationToken) (tok : Nat)
    (now : Int) : Except TokenError (List ConfirmationToken) :=
  match get_by_token tokens tok with
  | none => .error .notFound
  | some _ =>
    .ok (update_first_token tokens tok
      (fun t => { t with used_at := some now, is_valid := false }))

/-- Embeds `ConfirmationTokenRepository.invalidate_token`
(`confirmation_token_repository.py:134-152`): sets `is_valid = False`
on the matching row; `ValueError` when absent. -/
def invalidate_token (tokens : List ConfirmationToken) (tok : Nat) :
    Except TokenError (List ConfirmationToken) :=
  match get_by_token tokens tok with
  | none => .error .notFound
  | some _ =>
    .ok (update_first_token tokens tok (fun t => { t with is_valid := false }))

/-- Embeds `ConfirmationTokenRepository.get_active_hotel_token`
(`confirmation_token_repository.py:171-198`): first
`hotel_confirmation` row for the (layover, hotel) pair with
`is_valid == True` and `expires_at > now`. -/
def get_active_hotel_token (tokens : List ConfirmationToken)
    (layover_id hotel_id : Nat) (now : Int) : Option ConfirmationToken :=
  tokens.find? (fun t =>
    t.layover_id == layover_id && t.hotel_id == some hotel_id &&
    t.token_type == .hotel_confirmation && t.is_valid &&
    decide (t.expires_at > now))

/-- Embeds `ConfirmationService.generate_hotel_confirmation_token`
(`confirmation_service.py:30-80`): if an active token already exists
for the (layover, hotel) pair, return its string and leave the table
unchanged; otherwise insert a fresh `hotel_confirmation` token expiring
`expiry_hours` from now and return its string.  `fresh` stands for the
`uuid.uuid4()` draw. -/
def generate_hotel_confirmation_token (tokens : List ConfirmationToken)
    (layover_id hotel_id : Nat) (expiry_hours : Int) (now : Int)
    (fresh : Nat) : Nat × List ConfirmationToken :=
  match get_active_hotel_token tokens layover_id hotel_id now with
  | some existing => (existing.token, tokens)
  | none =>
    (fresh,
     tokens ++ [{ token := fresh
                  token_type := .hotel_confirmation
                  layover_id := layover_id
                  hotel_id := some hotel_id
                  expires_at := now + expiry_hours * 3600
                  used_at := none
                  is_valid := true }])

/-- Look a layover up by id (`LayoverRepository.get_by_id`). -/
def get_layover_by_id (layovers : List Layover) (layover_id : Nat) :
    Option Layover :=
  layovers.find? (fun l => l.id == layover_id)

/-- Embeds `ConfirmationService.validate_and_get_layover`
(`confirmation_service.py:82-116`): repository `validate_token`, then
layover lookup, then the hotel-response status gate
(`status in ["SENT", "PENDING", "CHANGES_REQUESTED"]`, otherwise
`InvalidStatusTransitionException`); returns the token row together
with the layover. -/
def validate_and_get_layover (tokens : List ConfirmationToken)
    (layovers : List Layover) (tok : Nat) (now : Int) :
    Except TokenError (ConfirmationToken × Layover) :=
  match validate_token tokens tok now with
  | .error e => .error e
  | .ok t =>
    match get_layover_by_id layovers t.layover_id with
  | none => .error .notFound
  | some l =>
    if l.status = .SENT ∨ l.status = .PENDING ∨
       l.status = .CHANGES_REQUESTED then
      .ok (t, l)
    else
      .error .invalidState

/-- Token consumption as performed by the hotel-response handlers
(`confirm_booking` / `decline_booking` / `request_changes`,
`confirmation_service.py`): `validate_token` first, `mark_as_used`
on success.  (The layover-status gate sits between the two in the
source; a token already consumed is rejected by the leading
`validate_token` call, before that gate is reached.) -/
def consume (tokens : List ConfirmationToken) (tok : Nat) (now : Int) :
    Except TokenError (List ConfirmationToken) :=
  match validate_token tokens tok now with
  | .error e => .error e
  | .ok _ => mark_as_used tokens tok now

/-- The repository operations that can touch the token table after a
token exists, for the write-once-validity invariant: `create` appends a
row, `mark_as_used` and `invalidate_token` flip `is_valid` off on their
target row (and are no-ops on a missing target, since the source raises
before mutating). -/
inductive TokenOp where
  | create (t : ConfirmationToken)
  | markUsed (tok : Nat) (now : Int)
  | invalidate (tok : Nat)
deriving DecidableEq, Repr

/-- Apply one repository operation to the token table. -/
def apply_token_op (tokens : List ConfirmationToken) :
    TokenOp → List ConfirmationToken
  | .create t => tokens ++ [t]
  | .markUsed tok now =>
    match mark_as_used tokens tok now with
    | .ok ts => ts
    | .error _ => tokens
  | .invalidate tok =>
    match invalidate_token tokens tok with
    | .ok ts => ts
    | .error _ => tokens

/-- Apply a sequence of repository operations to the token table. -/
def apply_token_ops (tokens : List ConfirmationToken)
    (ops : List TokenOp) : List ConfirmationToken :=
  ops.foldl apply_token_op tokens

/-- A concrete layover used to instantiate theorems: freshly created
DRAFT row with a hotel assigned (all bookkeeping at its column
defaults). -/
def exBase : Layover :=
  { id := 1
    hotel_id := some 7
    check_in_at := 0
    status := .DRAFT
    sent_at := none
    pending_at := none
    confirmed_at := none
    escalated_at := none
    completed_at := none
    on_hold_at := none
    on_hold_reason := none
    amendment_count := 0
    last_amended_at := none
    hotel_notified_of_amendment := false
    special_requirements := none
    transport_details := none
    last_reminder_sent_at := none
    reminder_count := 0
    reminders_paused := false
    reminders_paused_reason := none
    reminders_paused_at := none
    hotel_confirmation_number := none
    cancelled_at := none
    cancellation_reason := none
    cancellation_notice_hours := none
    cancellation_charge_applies := false
    cancellation_charge_policy := none
    cancellation_charge_percent := none }

/-- A PENDING layover whose check-in is 36 hours after instant 0. -/
def ex36h : Layover :=
  { exBase with status := .PENDING, sent_at := some 0, pending_at := some 0
                check_in_at := 36 * 3600 }

/-- A PENDING layover sent at instant 0. -/
def exPending : Layover :=
  { exBase with status := .PENDING, sent_at := some 0, pending_at := some 0 }

/-- A COMPLETED layover. -/
def exCompleted : Layover :=
  { exBase with status := .COMPLETED, completed_at := some 500 }

/-- A CONFIRMED layover (confirmation recorded at instant 100). -/
def exConfirmedHeld : Layover :=
  { exBase with status := .CONFIRMED, sent_at := some 0, pending_at := some 0
                confirmed_at := some 100 }

/-- The layover owning the example tokens, in status SENT. -/
def exLayoverSENT : Layover := { exBase with status := .SENT }

/-- A token that has been stamped `used_at` but (hypothetically) still
carries `is_valid = true`, unexpired at the instants used below. -/
def exTokUsedStillValid : ConfirmationToken :=
  { token := 11
    token_type := .hotel_confirmation
    layover_id := 1
    hotel_id := some 7
    expires_at := 1000
    used_at := some 5
    is_valid := true }

/-- An unused valid token whose expiry instant is exactly 10. -/
def exTokAtExpiry : ConfirmationToken :=
  { token := 12
    token_type := .hotel_confirmation
    layover_id := 1
    hotel_id := some 7
    expires_at := 10
    used_at := none
    is_valid := true }

/-- An unused valid token expiring at instant 1000. -/
def exTokFresh : ConfirmationToken :=
  { token := 14
    token_type := .hotel_confirmation
    layover_id := 1
    hotel_id := some 7
    expires_at := 1000
    used_at := none
    is_valid := true }

/-- C1, counterexample.  At cancellation 36 hours before check-in the
claim requires tier `"24_48h_50"` with percent 50 and
`cancellation_charge_applies = true`; `cancel_layover` records
`notice_hours = 36` but `charge_applies = false` (its only rule is
`notice_hours < 24`) and never writes the policy or percent columns. -/
theorem cancel_charge_tier_counterexample :
    ((cancel_layover 0 "schedule_change" ex36h).toOption.map
        (fun r => (r.cancellation_notice_hours, r.cancellation_charge_applies,
                   r.cancellation_charge_policy, r.cancellation_charge_percent))) =
      some (some 36, false, none, none) ∧
    ¬ (((cancel_layover 0 "schedule_change" ex36h).toOption.map
        (fun r => (r.cancellation_charge_applies,
                   r.cancellation_charge_percent))) =
      some (true, some 50)) := by
  decide

/-- C1, amended: for every cancellation of a layover whose status is not
COMPLETED, `cancel_layover` records `notice_hours` as the truncation
toward zero of the hours between cancellation time and check-in, sets
`cancellation_charge_applies` exactly when `notice_hours < 24`, and
leaves `cancellation_charge_policy` and `cancellation_charge_percent`
untouched (no tier is recorded). -/
theorem cancel_records_notice_and_charge (l : Layover) (now : Int)
    (reason : String) (h : l.status ≠ .COMPLETED) :
    cancel_layover now reason l =
      .ok { l with
        status := .CANCELLED
        cancelled_at := some now
        cancellation_reason := some reason
        cancellation_notice_hours := some (notice_hours_of l.check_in_at now)
        cancellation_charge_applies :=
          decide (notice_hours_of l.check_in_at now < 24)
        reminders_paused := true
        reminders_paused_reason := some ("Cancelled: " ++ reason) } := by
  simp [cancel_layover, h]

/-- C1, witness for the amended theorem at the 36-hour instance. -/
theorem cancel_records_notice_and_charge_witness :
    ex36h.status ≠ LayoverStatus.COMPLETED ∧
    ((cancel_layover 0 "schedule_change" ex36h).toOption.map
        (fun r => (r.cancellation_notice_hours, r.cancellation_charge_applies))) =
      some (some 36, false) := by
  refine ⟨by decide, ?_⟩
  rw [cancel_records_notice_and_charge ex36h 0 "schedule_change" (by decide)]
  decide

/-- C2: every workflow operation invoked on a layover whose status lies
outside that operation's allowed source set fails with the
`InvalidState` error.  In this embedding an operation returns the
updated row only through `Except.ok`, and each source method performs
its status check before its first field assignment, so the `.error`
result carries the layover through unchanged (all-or-nothing). -/
theorem invalid_source_status_rejected (l : Layover) (now : Int)
    (reason confirmation_number : String) (data : LayoverAmend) :
    (l.status ≠ .DRAFT → send_to_hotel now l = .error .invalidState) ∧
    (¬(l.status = .SENT ∨ l.status = .PENDING ∨ l.status = .CONFIRMED) →
      put_on_hold now reason l = .error .invalidState) ∧
    (l.status ≠ .ON_HOLD → resume_from_hold l = .error .invalidState) ∧
    (l.status ≠ .CONFIRMED → amend_layover now data l = .error .invalidState) ∧
    (¬(l.status = .CONFIRMED ∨ l.status = .AMENDED) →
      finalize_layover now confirmation_number l = .error .invalidState) ∧
    (l.status = .COMPLETED → cancel_layover now reason l = .error .invalidState) ∧
    (l.status ≠ .DRAFT → delete_layover l = .error .invalidState) := by
  refine ⟨fun h => ?_, fun h => ?_, fun h => ?_, fun h => ?_, fun h => ?_,
    fun h => ?_, fun h => ?_⟩
  · simp [send_to_hotel, h]
  · simp [put_on_hold, h]
  · simp [resume_from_hold, h]
  · simp [amend_layover, h]
  · simp [finalize_layover, h]
  · simp [cancel_layover, h]
  · simp [delete_layover, h]

/-- C2, witness: a COMPLETED layover is outside the allowed source set
of all seven operations. -/
theorem invalid_source_status_rejected_witness :
    send_to_hotel 0 exCompleted = .error .invalidState ∧
    put_on_hold 0 "irrops" exCompleted = .error .invalidState ∧
    resume_from_hold exCompleted = .error .invalidState ∧
    amend_layover 0 ⟨none, none⟩ exCompleted = .error .invalidState ∧
    finalize_layover 0 "HC-1" exCompleted = .error .invalidState ∧
    cancel_layover 0 "irrops" exCompleted = .error .invalidState ∧
    delete_layover exCompleted = .error .invalidState := by
  have h := invalid_source_status_rejected exCompleted 0 "irrops" "HC-1" ⟨none, none⟩
  exact ⟨h.1 (by decide), h.2.1 (by decide), h.2.2.1 (by decide),
    h.2.2.2.1 (by decide), h.2.2.2.2.1 (by decide), h.2.2.2.2.2.1 (by decide),
    h.2.2.2.2.2.2 (by decide)⟩

/-- C3: evaluating the code at the claim's failing input.  Holding a
CONFIRMED layover (with `confirmed_at` set) and resuming it restores
CONFIRMED as claimed, but `resume_from_hold` sets
`reminders_paused = false` unconditionally (`layover_service.py:593`),
contradicting both the claim and the method's own docstring
("Resume reminders if not yet confirmed"): the confirmed-then-held
booking does not stay paused. -/
theorem resume_from_hold_unpauses_confirmed :
    (put_on_hold 200 "irrops" exConfirmedHeld).bind resume_from_hold =
      .ok { exConfirmedHeld with
        status := .CONFIRMED
        on_hold_at := some 200
        on_hold_reason := some "irrops"
        reminders_paused := false
        reminders_paused_reason := none
        reminders_paused_at := some 200 } ∧
    (((put_on_hold 200 "irrops" exConfirmedHeld).bind
        resume_from_hold).toOption.map
      (fun r => (r.status, r.reminders_paused))) =
      some (.CONFIRMED, false) := by
  constructor <;> rfl

/-- C4: under the reminder loop's candidate conditions (status PENDING,
reminders not paused, `sent_at` set) and a Notifier that reports
success, a tick sends reminder #1 — incrementing `reminder_count` to 1
and setting `last_reminder_sent_at` — exactly when `reminder_count = 0`
and at least 12 hours have elapsed since `sent_at`; it sends reminder
#2 — incrementing `reminder_count` to 2 — exactly when
`reminder_count = 1` and at least 24 hours have elapsed; and it sends
nothing when `reminder_count ≥ 2`. -/
theorem reminder_tick_thresholds (l : Layover) (now s : Int)
    (hst : l.status = .PENDING) (hp : l.reminders_paused = false)
    (hs : l.sent_at = some s) :
    (process_reminder_tick now .success l =
        ({ l with reminder_count := 1, last_reminder_sent_at := some now },
         some 1)
      ↔ (l.reminder_count = 0 ∧ now - s ≥ 12 * 3600)) ∧
    (process_reminder_tick now .success l =
        ({ l with reminder_count := 2, last_reminder_sent_at := some now },
         some 2)
      ↔ (l.reminder_count = 1 ∧ now - s ≥ 24 * 3600)) ∧
    (l.reminder_count ≥ 2 → process_reminder_tick now .success l = (l, none)) := by
  by_cases hc0 : l.reminder_count = 0
  · by_cases h12 : 43200 ≤ now - s
    · simp [process_reminder_tick, hst, hp, hs, hc0, h12,
        Layover.mk.injEq, Prod.mk.injEq]
    · simp [process_reminder_tick, hst, hp, hs, hc0, h12,
        Layover.mk.injEq, Prod.mk.injEq]
  · by_cases hc1 : l.reminder_count = 1
    · by_cases h24 : 86400 ≤ now - s
      · simp [process_reminder_tick, hst, hp, hs, hc0, hc1, h24,
          Layover.mk.injEq, Prod.mk.injEq]
      · simp [process_reminder_tick, hst, hp, hs, hc0, hc1, h24,
          Layover.mk.injEq, Prod.mk.injEq]
    · simp [process_reminder_tick, hst, hp, hs, hc0, hc1,
        Layover.mk.injEq, Prod.mk.injEq]

/-- C4, witness: a PENDING layover sent 13 hours ago receives reminder
#1, and a second tick one minute later sends nothing. -/
theorem reminder_tick_thresholds_witness :
    process_reminder_tick (13 * 3600) .success exPending =
      ({ exPending with reminder_count := 1
                        last_reminder_sent_at := some (13 * 3600) },
       some 1) ∧
    process_reminder_tick (13 * 3600 + 60) .success
        { exPending with reminder_count := 1
                         last_reminder_sent_at := some (13 * 3600) } =
      ({ exPending with reminder_count := 1
                        last_reminder_sent_at := some (13 * 3600) },
       none) := by
  constructor
  · exact (reminder_tick_thresholds exPending (13 * 3600) 0 rfl rfl rfl).1.mpr
      ⟨rfl, by norm_num⟩
  · decide

/-- C5: a PENDING, un-paused layover sent at least 36 hours ago is
escalated by one tick (status ESCALATED, `escalated_at` set, on
Notifier success); every subsequent tick leaves the escalated layover
unchanged, because the escalation loop only pulls layovers with
`status == PENDING` — so escalation occurs at most once per layover. -/
theorem escalation_at_most_once (l : Layover) (now s : Int)
    (hst : l.status = .PENDING) (hp : l.reminders_paused = false)
    (hs : l.sent_at = some s) (h36 : now - s ≥ 36 * 3600) :
    process_escalation_tick now .success l =
      ({ l with status := .ESCALATED, escalated_at := some now }, true) ∧
    ∀ now2 oc2,
      process_escalation_tick now2 oc2
          { l with status := .ESCALATED, escalated_at := some now } =
        ({ l with status := .ESCALATED, escalated_at := some now }, false) := by
  have h36' : 129600 ≤ now - s := by omega
  constructor
  · simp [process_escalation_tick, hst, hp, hs, h36']
  · intro now2 oc2
    simp [process_escalation_tick]

/-- C5, witness: a PENDING layover sent 37 hours ago is escalated, and
the next tick is a no-op on the result. -/
theorem escalation_at_most_once_witness :
    process_escalation_tick (37 * 3600) .success exPending =
      ({ exPending with status := .ESCALATED
                        escalated_at := some (37 * 3600) }, true) ∧
    process_escalation_tick (38 * 3600) .success
        { exPending with status := .ESCALATED
                         escalated_at := some (37 * 3600) } =
      ({ exPending with status := .ESCALATED
                        escalated_at := some (37 * 3600) }, false) := by
  have h := escalation_at_most_once exPending (37 * 3600) 0 rfl rfl rfl
    (by norm_num)
  exact ⟨h.1, h.2 (38 * 3600) .success⟩

/-- C6: a layover with `reminders_paused = true` is left untouched by
both scheduler loops on any tick, whatever the elapsed time and the
Notifier outcome: both candidate passes return it unchanged and send
nothing. -/
theorem paused_layover_untouched (l : Layover) (now : Int)
    (oc : NotifyOutcome) (hp : l.reminders_paused = true) :
    process_reminder_tick now oc l = (l, none) ∧
    process_escalation_tick now oc l = (l, false) := by
  constructor
  · by_cases h : l.status = .PENDING <;>
      simp [process_reminder_tick, h, hp]
  · by_cases h : l.status = .PENDING <;>
      simp [process_escalation_tick, h, hp]

/-- C6, witness: a paused PENDING layover sent 1000 hours before the
tick is unchanged by both loops. -/
theorem paused_layover_untouched_witness :
    process_reminder_tick (1000 * 3600) .success
        { exPending with reminders_paused := true } =
      ({ exPending with reminders_paused := true }, none) ∧
    process_escalation_tick (1000 * 3600) .success
        { exPending with reminders_paused := true } =
      ({ exPending with reminders_paused := true }, false) :=
  paused_layover_untouched { exPending with reminders_paused := true }
    (1000 * 3600) .success rfl

/-- C10: in both scheduler loops a candidate layover is mutated only
when the notification call reports success: when the Notifier reports
failure or raises, the tick returns the layover unchanged with nothing
sent (so the same reminder or escalation is attempted again by a later
tick, whose behaviour on the unchanged layover is identical). -/
theorem notify_failure_leaves_unchanged (l : Layover) (now now2 : Int)
    (oc : NotifyOutcome) (hoc : oc ≠ .success) :
    process_reminder_tick now oc l = (l, none) ∧
    process_escalation_tick now oc l = (l, false) ∧
    process_reminder_tick now2 .success (process_reminder_tick now oc l).1 =
      process_reminder_tick now2 .success l ∧
    process_escalation_tick now2 .success (process_escalation_tick now oc l).1 =
      process_escalation_tick now2 .success l := by
  have hr : process_reminder_tick now oc l = (l, none) := by
    unfold process_reminder_tick
    cases hsent : l.sent_at <;> simp [hoc, hsent]
  have he : process_escalation_tick now oc l = (l, false) := by
    unfold process_escalation_tick
    cases hsent : l.sent_at <;> simp [hoc, hsent]
  exact ⟨hr, he, by rw [hr], by rw [he]⟩

/-- C10, witness: a failed reminder and a failed escalation alert leave
a 37-hours-overdue PENDING layover unchanged, and the next successful
tick behaves as if the failed one had not happened. -/
theorem notify_failure_leaves_unchanged_witness :
    process_reminder_tick (37 * 3600) .failure exPending = (exPending, none) ∧
    process_escalation_tick (37 * 3600) .raised exPending =
      (exPending, false) := by
  refine ⟨(notify_failure_leaves_unchanged exPending (37 * 3600) 0 .failure
    (by decide)).1, (notify_failure_leaves_unchanged exPending (37 * 3600) 0
      .raised (by decide)).2.1⟩

/-- C7, counterexample.  (a) A token with `used_at` set but
`is_valid = true` validates successfully: `validate_token` only checks
`is_valid`, never `used_at`, so the claimed "AlreadyUsed when `used_at`
is set or `is_valid` is false" does not hold as stated.  (b) At
`now = expires_at` validation also succeeds: the source raises
`Expired` only when `expires_at < now`, not at `now >= expires_at`. -/
theorem validate_token_counterexample :
    exTokUsedStillValid.used_at = some 5 ∧
    validate_and_get_layover [exTokUsedStillValid] [exLayoverSENT] 11 10 =
      .ok (exTokUsedStillValid, exLayoverSENT) ∧
    (10 : Int) ≥ exTokAtExpiry.expires_at ∧
    validate_and_get_layover [exTokAtExpiry] [exLayoverSENT] 12 10 =
      .ok (exTokAtExpiry, exLayoverSENT) := by
  refine ⟨rfl, rfl, by decide, rfl⟩

/-- C7, amended: `validate` fails with `NotFound` when no such token
exists (and also when the owning layover is missing); fails with
`AlreadyUsed` when `is_valid` is false (`used_at` is not separately
consulted — every token the system consumes also gets
`is_valid = false`); fails with `Expired` when `now > expires_at` (a
token at exactly its expiry instant is still accepted); for an
otherwise-valid token fails with `InvalidState` when the owning
layover's status is not SENT, PENDING or CHANGES_REQUESTED; and
otherwise returns the token record. -/
theorem validate_characterization (tokens : List ConfirmationToken)
    (layovers : List Layover) (tok : Nat) (now : Int) :
    (get_by_token tokens tok = none →
      validate_and_get_layover tokens layovers tok now = .error .notFound) ∧
    (∀ t, get_by_token tokens tok = some t → t.is_valid = false →
      validate_and_get_layover tokens layovers tok now = .error .alreadyUsed) ∧
    (∀ t, get_by_token tokens tok = some t → t.is_valid = true →
      t.expires_at < now →
      validate_and_get_layover tokens layovers tok now = .error .expired) ∧
    (∀ t, get_by_token tokens tok = some t → t.is_valid = true →
      now ≤ t.expires_at →
      get_layover_by_id layovers t.layover_id = none →
      validate_and_get_layover tokens layovers tok now = .error .notFound) ∧
    (∀ t L, get_by_token tokens tok = some t → t.is_valid = true →
      now ≤ t.expires_at →
      get_layover_by_id layovers t.layover_id = some L →
      ¬(L.status = .SENT ∨ L.status = .PENDING ∨
        L.status = .CHANGES_REQUESTED) →
      validate_and_get_layover tokens layovers tok now = .error .invalidState) ∧
    (∀ t L, get_by_token tokens tok = some t → t.is_valid = true →
      now ≤ t.expires_at →
      get_layover_by_id layovers t.layover_id = some L →
      (L.status = .SENT ∨ L.status = .PENDING ∨
        L.status = .CHANGES_REQUESTED) →
      validate_and_get_layover tokens layovers tok now = .ok (t, L)) := by
  refine ⟨fun h => ?_, fun t ht hv => ?_, fun t ht hv hexp => ?_,
    fun t ht hv hexp hL => ?_, fun t L ht hv hexp hL hst => ?_,
    fun t L ht hv hexp hL hst => ?_⟩
  · simp [validate_and_get_layover, validate_token, h]
  · simp [validate_and_get_layover, validate_token, ht, hv]
  · simp [validate_and_get_layover, validate_token, ht, hv, hexp]
  · simp [validate_and_get_layover, validate_token, ht, hv,
      not_lt.mpr hexp, hL]
  · simp [validate_and_get_layover, validate_token, ht, hv,
      not_lt.mpr hexp, hL, hst]
  · simp [validate_and_get_layover, validate_token, ht, hv,
      not_lt.mpr hexp, hL, hst]

/-- C7, witness: the full success and `AlreadyUsed` cases at concrete
inputs. -/
theorem validate_characterization_witness :
    validate_and_get_layover [exTokFresh] [exLayoverSENT] 14 10 =
      .ok (exTokFresh, exLayoverSENT) ∧
    validate_and_get_layover [{ exTokFresh with is_valid := false }]
        [exLayoverSENT] 14 10 = .error .alreadyUsed := by
  constructor
  · exact (validate_characterization [exTokFresh] [exLayoverSENT]
      14 10).2.2.2.2.2 exTokFresh exLayoverSENT rfl rfl (by decide) rfl
      (Or.inl rfl)
  · exact (validate_characterization [{ exTokFresh with is_valid := false }]
      [exLayoverSENT] 14 10).2.1 { exTokFresh with is_valid := false }
      rfl rfl

/-- Replacing the first row matching `tok2` with a token-preserving `f`
affects `get_by_token tok` only when `tok = tok2`, where it maps the
found row through `f`. -/
theorem get_by_token_update_first (tok tok2 : Nat)
    (f : ConfirmationToken → ConfirmationToken)
    (hf : ∀ t, (f t).token = t.token) :
    ∀ ts : List ConfirmationToken,
      get_by_token (update_first_token ts tok2 f) tok =
        if tok = tok2 then (get_by_token ts tok).map f
        else get_by_token ts tok := by
  intro ts
  induction ts with
  | nil => by_cases h : tok = tok2 <;> simp [update_first_token, get_by_token, h]
  | cons t ts ih =>
    by_cases h1 : t.token = tok2
    · by_cases h2 : tok = tok2
      · simp [update_first_token, get_by_token, h1, h2, hf]
      · have h3 : ¬ (t.token = tok) := by omega
        unfold update_first_token get_by_token
        rw [if_pos (by simpa using h1),
          List.find?_cons_of_neg _ (by simp [hf, h1]; omega),
          List.find?_cons_of_neg _ (by simp [h1]; omega)]
        simp [get_by_token, h2]
    · by_cases h3 : t.token = tok
      · have h2 : ¬ (tok = tok2) := by omega
        simp [update_first_token, get_by_token, h1, h2, h3]
      · simpa [update_first_token, get_by_token, h1, h3] using ih

/-- A row found with `is_valid = false` keeps a found row with
`is_valid = false` across any single repository operation. -/
theorem token_invalid_preserved_op (ts : List ConfirmationToken)
    (tok : Nat) (t : ConfirmationToken)
    (ht : get_by_token ts tok = some t) (hv : t.is_valid = false)
    (op : TokenOp) :
    ∃ t2, get_by_token (apply_token_op ts op) tok = some t2 ∧
      t2.is_valid = false := by
  cases op with
  | create c =>
    refine ⟨t, ?_, hv⟩
    unfold apply_token_op get_by_token
    rw [List.find?_append]
    unfold get_by_token at ht
    simp [ht]
  | markUsed tok2 now =>
    unfold apply_token_op mark_as_used
    cases hg : get_by_token ts tok2 with
    | none => exact ⟨t, by simpa [hg] using ht, hv⟩
    | some u =>
      simp only [hg]
      rw [get_by_token_update_first tok tok2
        (fun t => { t with used_at := some now, is_valid := false })
        (fun _ => rfl)]
      by_cases h : tok = tok2
      · refine ⟨{ t with used_at := some now, is_valid := false }, ?_, rfl⟩
        rw [if_pos h, ht]
        rfl
      · exact ⟨t, by simp [h, ht], hv⟩
  | invalidate tok2 =>
    unfold apply_token_op invalidate_token
    cases hg : get_by_token ts tok2 with
    | none => exact ⟨t, by simpa [hg] using ht, hv⟩
    | some u =>
      simp only [hg]
      rw [get_by_token_update_first tok tok2
        (fun t => { t with is_valid := false }) (fun _ => rfl)]
      by_cases h : tok = tok2
      · refine ⟨{ t with is_valid := false }, ?_, rfl⟩
        rw [if_pos h, ht]
        rfl
      · exact ⟨t, by simp [h, ht], hv⟩

/-- Iterated form of `token_invalid_preserved_op` over an operation
sequence. -/
theorem token_invalid_preserved_ops (tok : Nat) :
    ∀ (ops : List TokenOp) (ts : List ConfirmationToken)
      (t : ConfirmationToken),
      get_by_token ts tok = some t → t.is_valid = false →
      ∃ t2, get_by_token (apply_token_ops ts ops) tok = some t2 ∧
        t2.is_valid = false := by
  intro ops
  induction ops with
  | nil => exact fun ts t ht hv => ⟨t, ht, hv⟩
  | cons op ops ih =>
    intro ts t ht hv
    obtain ⟨t2, ht2, hv2⟩ := token_invalid_preserved_op ts tok t ht hv op
    exact ih (apply_token_op ts op) t2 ht2 hv2

/-- C8, counterexample: at `now = expires_at` the claimed usability
condition `now < expires_at` is false, yet `is_usable` returns true —
the source's `is_expired` is `now > expires_at`, so the boundary
instant counts as usable. -/
theorem is_usable_boundary_counterexample :
    exTokAtExpiry.is_usable 10 = true ∧
    ¬ ((10 : Int) < exTokAtExpiry.expires_at) := by
  decide

/-- C8, amended: a token is usable iff `is_valid = true`, `used_at` is
null and `now ≤ expires_at` (the instant `now = expires_at` included);
consuming a consumed token yields `AlreadyUsed`; and once a token is
found with `is_valid = false` — as `mark_as_used` and
`invalidate_token` leave it — every sequence of repository operations
still finds it with `is_valid = false`, hence never usable again. -/
theorem token_usable_write_once (t : ConfirmationToken) (now : Int) :
    (t.is_usable now = true ↔
      (t.is_valid = true ∧ t.used_at = none ∧ now ≤ t.expires_at)) ∧
    (∀ tokens tok now1 s2, consume tokens tok now1 = .ok s2 →
      ∀ now2, consume s2 tok now2 = .error .alreadyUsed) ∧
    (∀ tokens tok t0, get_by_token tokens tok = some t0 →
      t0.is_valid = false → ∀ ops, ∃ t1,
        get_by_token (apply_token_ops tokens ops) tok = some t1 ∧
        t1.is_valid = false ∧ ∀ now2, t1.is_usable now2 = false) := by
  refine ⟨?_, ?_, ?_⟩
  · simp [ConfirmationToken.is_usable, ConfirmationToken.is_expired,
      not_lt, and_comm, and_assoc]
  · intro tokens tok now1 s2 hc now2
    unfold consume at hc
    cases hval : validate_token tokens tok now1 with
    | error e => rw [hval] at hc; exact absurd hc (by simp)
    | ok u =>
      rw [hval] at hc
      unfold validate_token at hval
      cases hg : get_by_token tokens tok with
      | none => rw [hg] at hval; exact absurd hval (by simp)
      | some v =>
        unfold mark_as_used at hc
        rw [hg] at hc
        have hs2 : s2 = update_first_token tokens tok
            (fun t => { t with used_at := some now1, is_valid := false }) := by
          simpa using hc.symm
        unfold consume validate_token
        rw [hs2, get_by_token_update_first tok tok
          (fun t => { t with used_at := some now1, is_valid := false })
          (fun _ => rfl)]
        simp [hg]
  · intro tokens tok t0 ht hv ops
    obtain ⟨t1, ht1, hv1⟩ := token_invalid_preserved_ops tok ops tokens t0 ht hv
    exact ⟨t1, ht1, hv1, fun now2 => by
      simp [ConfirmationToken.is_usable, hv1]⟩

/-- C8, witness: consuming a fresh token once succeeds and stamps it
used/invalid; consuming it again yields `AlreadyUsed`. -/
theorem token_usable_write_once_witness :
    consume [exTokFresh] 14 0 =
      .ok [{ exTokFresh with used_at := some 0, is_valid := false }] ∧
    consume [{ exTokFresh with used_at := some 0, is_valid := false }] 14 5 =
      .error .alreadyUsed := by
  refine ⟨by rfl, ?_⟩
  exact (token_usable_write_once exTokFresh 0).2.1 [exTokFresh] 14 0
    [{ exTokFresh with used_at := some 0, is_valid := false }] (by rfl) 5

/-- Lemma: `List.find?` only depends on the predicate's values on the list's
elements. -/
theorem find_eq_of_agree {α : Type} (p q : α → Bool) :
    ∀ xs : List α, (∀ x ∈ xs, p x = q x) → xs.find? p = xs.find? q := by
  intro xs
  induction xs with
  | nil => intro _; rfl
  | cons x xs ih =>
    intro h
    have hx := h x (List.mem_cons_self x xs)
    by_cases hp : p x = true
    · rw [List.find?_cons_of_pos _ hp, List.find?_cons_of_pos _ (hx ▸ hp)]
    · have hp' : ¬ q x = true := by rw [← hx]; exact hp
      rw [List.find?_cons_of_neg _ hp, List.find?_cons_of_neg _ hp',
        ih (fun y hy => h y (List.mem_cons_of_mem x hy))]

/-- The activity predicate of `get_active_hotel_token` gives the same
verdict at `now1` and at `now2` on every token that does not expire
between the two instants. -/
theorem active_pred_stable (layover_id hotel_id : Nat) (now1 now2 : Int)
    (h12 : now1 ≤ now2) (t : ConfirmationToken)
    (hkeep : now1 < t.expires_at → now2 < t.expires_at) :
    (t.layover_id == layover_id && t.hotel_id == some hotel_id &&
      t.token_type == .hotel_confirmation && t.is_valid &&
      decide (t.expires_at > now1)) =
    (t.layover_id == layover_id && t.hotel_id == some hotel_id &&
      t.token_type == .hotel_confirmation && t.is_valid &&
      decide (t.expires_at > now2)) := by
  by_cases he : now1 < t.expires_at
  · have he2 : now2 < t.expires_at := hkeep he
    simp [he, he2]
  · have he2 : ¬ now2 < t.expires_at := fun h => he (lt_of_le_of_lt h12 h)
    simp [he, he2]

/-- C9: calling `generate_hotel_confirmation_token` twice for the same
(layover, hotel) pair — at instants `now1 ≤ now2` with no token
expiring in between and the second call within the first token's
72-hour lifetime (no intervening consumption, invalidation or expiry)
— returns the same token string both times instead of minting a second
simultaneously valid token. -/
theorem issue_idempotent (tokens : List ConfirmationToken)
    (layover_id hotel_id : Nat) (now1 now2 : Int) (f1 f2 : Nat)
    (h12 : now1 ≤ now2) (hwin : now2 < now1 + 72 * 3600)
    (hnoexp : ∀ t ∈ tokens, now1 < t.expires_at → now2 < t.expires_at) :
    (generate_hotel_confirmation_token
        (generate_hotel_confirmation_token tokens layover_id hotel_id
          72 now1 f1).2
        layover_id hotel_id 72 now2 f2).1 =
      (generate_hotel_confirmation_token tokens layover_id hotel_id
        72 now1 f1).1 := by
  have hagree : get_active_hotel_token tokens layover_id hotel_id now1 =
      get_active_hotel_token tokens layover_id hotel_id now2 := by
    unfold get_active_hotel_token
    exact find_eq_of_agree _ _ tokens
      (fun t ht => active_pred_stable layover_id hotel_id now1 now2 h12 t
        (hnoexp t ht))
  cases hact : get_active_hotel_token tokens layover_id hotel_id now1 with
  | some t =>
    unfold generate_hotel_confirmation_token
    rw [hact, ← hagree, hact]
  | none =>
    unfold generate_hotel_confirmation_token
    rw [hact]
    have hnone2 : get_active_hotel_token tokens layover_id hotel_id now2 =
        none := by rw [← hagree, hact]
    unfold get_active_hotel_token
    rw [List.find?_append]
    unfold get_active_hotel_token at hnone2
    rw [hnone2]
    have hnew : now2 < now1 + 259200 := by omega
    simp [List.find?, hnew]

/-- C9, witness: issuing twice on an empty token table at the same
instant returns the freshly minted string both times. -/
theorem issue_idempotent_witness :
    (generate_hotel_confirmation_token
        (generate_hotel_confirmation_token [] 1 7 72 0 21).2
        1 7 72 0 22).1 =
      (generate_hotel_confirmation_token [] 1 7 72 0 21).1 ∧
    (generate_hotel_confirmation_token [] 1 7 72 0 21).1 = 21 := by
  refine ⟨issue_idempotent [] 1 7 0 0 21 22 le_rfl (by norm_num) ?_, rfl⟩
  intro t ht
  simp at ht

end QanotSharq
